import Mathlib

/-!
Verification of the denoising CLI script `scripts/TP1/denoise_image.py`.

The script parses CLI arguments, loads a NIfTI image, reorients its voxel
array to the canonical RSA order, dispatches on an integer method id to one
of five denoising filters, computes the residual `data - denoised_image`,
displays both volumes and writes both volumes to disk.

Shallow embedding choices:
  * voxel arrays (numpy 3-D arrays) are nested lists of integers, with exact
    arithmetic; the elementwise numpy subtraction and addition become
    `zipWith` on nested lists;
  * floating parameters (`sigma`, `kappa`, ...) are rationals;
  * the helper modules `tools.io`, `tools.display`, `tools.denoise` are not
    part of the analysed source tree: they are external collaborators of the
    script and are modelled from the specification as a `Tools` record of
    functions over which the theorems quantify;
  * the script run is modelled as `main : Tools -> Args -> Except PyError Run`
    where `Run` carries the ordered trace of stage events of a successful
    invocation and an uncaught Python exception becomes `Except.error`
    (a non-zero process exit status).
-/

namespace DenoiseImage

/-- A 3-D voxel array: nested lists of integer intensity samples
(exact-arithmetic embedding of the numpy array). -/
abbrev Vol := List (List (List Int))

/-- A 4x4 affine spatial transform, embedded as nested lists of rationals. -/
abbrev Affine := List (List Rat)

/-- A loaded NIfTI image: voxel data, affine, voxel sizes
(`image.header.get_zooms()`). -/
structure Image where
  data : Vol
  affine : Affine
  zooms : List Rat
deriving DecidableEq

/-- The CLI arguments of `_build_arg_parser`, one field per `add_argument`. -/
structure Args where
  in_image : String
  denoise_method : Int
  output_dir : String
  axe : Int
  sigma : Rat
  patch_size : Int
  patch_distance : Int
  h : Int
  sigma_color : Option Rat
  sigma_spatial : Rat
  n : Int
  kappa : Rat
  gamma : Rat
deriving DecidableEq

/-- The parser defaults of `_build_arg_parser`: only the two positional
arguments have no default (`output_dir` is the current directory, `axe` is 0,
`sigma` 1, `patch_size` 5, `patch_distance` 5, `h` 30, `sigma_color` None,
`sigma_spatial` 1, `n` 10, `kappa` 50, `gamma` 0.1). -/
def defaultArgs (path : String) (method : Int) : Args :=
  Args.mk path method "." 0 1 5 5 30 Option.none 1 10 50 (1/10)

/-- One entry of the heterogeneous Python `parameters` list used for output
file naming: an int, a float, or the Python value None. -/
inductive Param where
  | int (i : Int)
  | rat (q : Rat)
  | none
deriving DecidableEq

/-- How an `Option Rat` CLI value enters the `parameters` list: unset stays
the Python value None. -/
def Param.ofOptRat : Option Rat → Param
  | Option.none => Param.none
  | Option.some q => Param.rat q

/-- Elementwise subtraction of two rows (numpy broadcasting restricted to the
equal-shape case that occurs in the script). -/
def sub1 (a b : List Int) : List Int := List.zipWith (fun x y => x - y) a b

/-- Elementwise subtraction of two slices. -/
def sub2 (a b : List (List Int)) : List (List Int) := List.zipWith sub1 a b

/-- Elementwise subtraction of two volumes: the numpy expression
`data - denoised_image` of line 158. -/
def sub3 (a b : Vol) : Vol := List.zipWith sub2 a b

/-- Elementwise addition of two rows. -/
def add1 (a b : List Int) : List Int := List.zipWith (fun x y => x + y) a b

/-- Elementwise addition of two slices. -/
def add2 (a b : List (List Int)) : List (List Int) := List.zipWith add1 a b

/-- Elementwise addition of two volumes. -/
def add3 (a b : Vol) : Vol := List.zipWith add2 a b

/-- The shape of a slice: the list of row lengths. -/
def shape2 (a : List (List Int)) : List Nat := a.map List.length

/-- The shape of a volume: for the rectangular arrays numpy produces, two
volumes have the same numpy shape exactly when `shape3` agrees. -/
def shape3 (a : Vol) : List (List Nat) := a.map shape2

/-- Modelled from the spec: the external collaborator functions of
`tools.io`, `tools.display` and `tools.denoise`, which are not under the
analysed source tree.  Per spec section 4.1 the loader raises
InvalidImageError on a bad file (here `Except.error`); per section 4.2 the
normalizer is a pure function returning the reoriented voxel array; per
section 4.3 the five filters are external numeric routines; per section 4.5
display failures are reported, never raised (here a Bool success flag); per
section 4.6 the writer can fail with IOError (here a Bool success flag). -/
structure Tools where
  check_valid_image : String → Except Unit Image
  reorient_data_rsa : Image → Vol
  denoise_non_local_means : Vol → Int → Int → Int → Vol
  denoise_gaussian : Vol → Rat → Vol
  denoise_median : Vol → Int → Vol
  denoise_bilateral : Vol → Int → Option Rat → Rat → Vol
  denoise_anisotropic_diffusion : Vol → Int → Rat → Rat → Vol
  display_ok : Vol → List Rat → Int → Bool
  save_ok : Vol → Affine → String → String → List Param → String → Bool → Bool

/-- The uncaught Python exceptions that can end the process (each gives a
non-zero exit status): InvalidImageError from the loader, UnboundLocalError
(the unmapped-method crash of line 158), IOError from the writer.  The
script defines no UnsupportedMethodError and raises nothing of that kind. -/
inductive PyError where
  | invalidImage
  | unboundLocal (name : String)
  | ioError
deriving DecidableEq

/-- One observable stage action of `main`, in program order. -/
inductive Event where
  | load (path : String)
  | normalize
  | denoiseStage (method : Int) (name : String) (params : List Param)
  | residualStage
  | displayStage (arr : Vol) (zooms : List Rat) (axe : Int) (ok : Bool)
  | writeStage (arr : Vol) (affine : Affine) (path name : String)
      (params : List Param) (dir : String) (res : Bool)
deriving DecidableEq

/-- The observable outcome of a successful invocation. -/
structure Run where
  trace : List Event
  denoised : Vol
  residualArr : Vol
  method_name : String
  parameters : List Param
deriving DecidableEq

/-- The if/elif dispatch of `main` (lines 133-152): for a mapped method id,
the denoised array, the `method_name` string and the `parameters` list; for
an unmapped id no branch assigns `denoised_image` and the result is none. -/
def dispatch (t : Tools) (a : Args) (data : Vol) :
    Option (Vol × String × List Param) :=
  if a.denoise_method = 0 then
    Option.some (t.denoise_non_local_means data a.h a.patch_size a.patch_distance,
      "nl_means", [Param.int a.h, Param.int a.patch_size, Param.int a.patch_distance])
  else if a.denoise_method = 1 then
    Option.some (t.denoise_gaussian data a.sigma, "gaussian", [Param.rat a.sigma])
  else if a.denoise_method = 3 then
    Option.some (t.denoise_median data a.patch_size, "median", [Param.int a.patch_size])
  else if a.denoise_method = 4 then
    Option.some (t.denoise_bilateral data a.patch_size a.sigma_color a.sigma_spatial,
      "bilateral",
      [Param.int a.patch_size, Param.ofOptRat a.sigma_color, Param.rat a.sigma_spatial])
  else if a.denoise_method = 5 then
    Option.some (t.denoise_anisotropic_diffusion data a.n a.kappa a.gamma,
      "anisotropic_diffusion",
      [Param.int a.n, Param.rat a.kappa, Param.rat a.gamma])
  else Option.none

/-- The body of `main` (lines 103-167).  The loader either fails (uncaught
InvalidImageError) or returns an image; a loaded image object is truthy, so
the `if image:` guard is taken.  The data is reoriented, the affine and
voxel sizes are read from the image, the method dispatch runs; an unmapped
method id leaves `denoised_image` unbound and line 158 raises
UnboundLocalError.  Otherwise the residual is computed, both volumes are
displayed (non-fatal result recorded) and both volumes are saved with the
same affine; a failed save raises IOError.  Wall-clock timing and the
console print are unmodelled (no numeric consequence). -/
def main (t : Tools) (a : Args) : Except PyError Run :=
  match t.check_valid_image a.in_image with
  | Except.error _ => Except.error PyError.invalidImage
  | Except.ok image =>
    let data := t.reorient_data_rsa image
    let affine := image.affine
    let voxel_sizes := image.zooms
    match dispatch t a data with
    | Option.none => Except.error (PyError.unboundLocal "denoised_image")
    | Option.some (denoised, mname, params) =>
      let residual_image := sub3 data denoised
      let d1 := t.display_ok denoised voxel_sizes a.axe
      let d2 := t.display_ok residual_image voxel_sizes a.axe
      let w1 := t.save_ok denoised affine a.in_image mname params a.output_dir false
      if w1 then
        let w2 := t.save_ok residual_image affine a.in_image mname params a.output_dir true
        if w2 then
          Except.ok (Run.mk
            [Event.load a.in_image, Event.normalize,
             Event.denoiseStage a.denoise_method mname params,
             Event.residualStage,
             Event.displayStage denoised voxel_sizes a.axe d1,
             Event.displayStage residual_image voxel_sizes a.axe d2,
             Event.writeStage denoised affine a.in_image mname params a.output_dir false,
             Event.writeStage residual_image affine a.in_image mname params a.output_dir true]
            denoised residual_image mname params)
        else Except.error PyError.ioError
      else Except.error PyError.ioError

/-- The process exit status: 0 on a normal return of `main`, 1 when an
uncaught exception terminates the interpreter. -/
def exitCode (r : Except PyError Run) : Nat :=
  match r with
  | Except.ok _ => 0
  | Except.error _ => 1

/-- The spec contract of section 4.3: every filter returns an array of the
same shape as its input. -/
def ShapePreserving (t : Tools) : Prop :=
  (∀ d hh p q, shape3 (t.denoise_non_local_means d hh p q) = shape3 d) ∧
  (∀ d s, shape3 (t.denoise_gaussian d s) = shape3 d) ∧
  (∀ d p, shape3 (t.denoise_median d p) = shape3 d) ∧
  (∀ d p c s, shape3 (t.denoise_bilateral d p c s) = shape3 d) ∧
  (∀ d m k g, shape3 (t.denoise_anisotropic_diffusion d m k g) = shape3 d)

/-- The `Run` value a successful invocation produces, spelled out. -/
def runOf (t : Tools) (a : Args) (image : Image) (dn : Vol) (nm : String)
    (ps : List Param) : Run :=
  Run.mk
    [Event.load a.in_image, Event.normalize,
     Event.denoiseStage a.denoise_method nm ps,
     Event.residualStage,
     Event.displayStage dn image.zooms a.axe (t.display_ok dn image.zooms a.axe),
     Event.displayStage (sub3 (t.reorient_data_rsa image) dn) image.zooms a.axe
       (t.display_ok (sub3 (t.reorient_data_rsa image) dn) image.zooms a.axe),
     Event.writeStage dn image.affine a.in_image nm ps a.output_dir false,
     Event.writeStage (sub3 (t.reorient_data_rsa image) dn) image.affine
       a.in_image nm ps a.output_dir true]
    dn (sub3 (t.reorient_data_rsa image) dn) nm ps

/-- A small concrete volume for witnesses. -/
def data0 : Vol := [[[1, 2], [3, 4]], [[5, 6], [7, 8]]]

/-- A concrete affine for witnesses. -/
def affine0 : Affine := [[1,0,0,0],[0,1,0,0],[0,0,1,0],[0,0,0,1]]

/-- A concrete loaded image for witnesses. -/
def img0 : Image := Image.mk data0 affine0 [1, 1, 1]

/-- A concrete `Tools` instance for witnesses: the loader fails exactly on
the empty path, reorientation reverses the outermost axis (a genuine axis
flip), the five filters are shape-preserving stand-ins, display and save
succeed. -/
def toolsA : Tools := Tools.mk
  (fun p => if p = "" then Except.error () else Except.ok img0)
  (fun im => im.data.reverse)
  (fun d _ _ _ => d)
  (fun d _ => d)
  (fun d _ => d)
  (fun d _ _ _ => d)
  (fun d _ _ _ => d)
  (fun _ _ _ => true)
  (fun _ _ _ _ _ _ _ => true)

/-- A concrete `Tools` instance whose display always fails (is reported as
unsuccessful), for the non-fatal-display witnesses. -/
def toolsB : Tools := Tools.mk
  (fun p => if p = "" then Except.error () else Except.ok img0)
  (fun im => im.data.reverse)
  (fun d _ _ _ => d)
  (fun d _ => d)
  (fun d _ => d)
  (fun d _ _ _ => d)
  (fun d _ _ _ => d)
  (fun _ _ _ => false)
  (fun _ _ _ _ _ _ _ => true)

/-- The affine arguments of the write events of a trace, in order. -/
def writeAffines : List Event → List Affine
  | [] => []
  | Event.writeStage _ aff _ _ _ _ _ :: es => aff :: writeAffines es
  | _ :: es => writeAffines es

/-- The array arguments of the write events of a trace, in order. -/
def writeArrays : List Event → List Vol
  | [] => []
  | Event.writeStage arr _ _ _ _ _ _ :: es => arr :: writeArrays es
  | _ :: es => writeArrays es

/-- The parameter lists of the write events of a trace, in order. -/
def writeParams : List Event → List (List Param)
  | [] => []
  | Event.writeStage _ _ _ _ ps _ _ :: es => ps :: writeParams es
  | _ :: es => writeParams es

/-- The array arguments of the display events of a trace, in order. -/
def displayArrays : List Event → List Vol
  | [] => []
  | Event.displayStage arr _ _ _ :: es => arr :: displayArrays es
  | _ :: es => displayArrays es

/-- The voxel-size arguments of the display events of a trace, in order. -/
def displayZooms : List Event → List (List Rat)
  | [] => []
  | Event.displayStage _ z _ _ :: es => z :: displayZooms es
  | _ :: es => displayZooms es

/-- The stage kind of an event, forgetting payloads. -/
def stageTag : Event → String
  | Event.load _ => "load"
  | Event.normalize => "normalize"
  | Event.denoiseStage _ _ _ => "denoise"
  | Event.residualStage => "residual"
  | Event.displayStage _ _ _ _ => "display"
  | Event.writeStage _ _ _ _ _ _ _ => "write"

/-- Elementwise addition undoes elementwise subtraction on rows of equal
length. -/
theorem add1_sub1 (a : List Int) : ∀ b : List Int, a.length = b.length →
    add1 b (sub1 a b) = a := by
  induction a with
  | nil => intro b h; cases b with
    | nil => rfl
    | cons y ys => simp at h
  | cons x xs ih =>
    intro b h
    cases b with
    | nil => simp at h
    | cons y ys =>
      simp only [List.length_cons, Nat.succ.injEq] at h
      simp only [add1, sub1, List.zipWith_cons_cons, List.cons.injEq]
      exact ⟨by omega, ih ys h⟩

/-- The shape of a cons slice unfolds to the head length and the tail shape. -/
theorem shape2_cons (x : List Int) (xs : List (List Int)) :
    shape2 (x :: xs) = x.length :: shape2 xs := rfl

/-- The shape of a cons volume unfolds to the head shape and the tail shape. -/
theorem shape3_cons (x : List (List Int)) (xs : Vol) :
    shape3 (x :: xs) = shape2 x :: shape3 xs := rfl

/-- Elementwise addition undoes elementwise subtraction on slices of equal
shape. -/
theorem add2_sub2 (a : List (List Int)) : ∀ b : List (List Int),
    shape2 a = shape2 b → add2 b (sub2 a b) = a := by
  induction a with
  | nil => intro b h
           cases b with
           | nil => rfl
           | cons y ys => simp [shape2] at h
  | cons x xs ih =>
    intro b h
    cases b with
    | nil => simp [shape2] at h
    | cons y ys =>
      rw [shape2_cons, shape2_cons] at h
      injection h with h1 h2
      simp only [add2, sub2, List.zipWith_cons_cons, List.cons.injEq]
      exact ⟨add1_sub1 x y h1, ih ys h2⟩

/-- Elementwise addition undoes elementwise subtraction on volumes of equal
shape: `denoised + (data - denoised) = data` exactly. -/
theorem add3_sub3 (a : Vol) : ∀ b : Vol,
    shape3 a = shape3 b → add3 b (sub3 a b) = a := by
  induction a with
  | nil => intro b h
           cases b with
           | nil => rfl
           | cons y ys => simp [shape3] at h
  | cons x xs ih =>
    intro b h
    cases b with
    | nil => simp [shape3] at h
    | cons y ys =>
      rw [shape3_cons, shape3_cons] at h
      injection h with h1 h2
      simp only [add3, sub3, List.zipWith_cons_cons, List.cons.injEq]
      exact ⟨add2_sub2 x y h1, ih ys h2⟩

/-- Row subtraction preserves length when the lengths agree. -/
theorem len_sub1 (a b : List Int) (h : a.length = b.length) :
    (sub1 a b).length = a.length := by
  simp [sub1, List.length_zipWith, h]

/-- Slice subtraction preserves the shape when the shapes agree. -/
theorem shape2_sub2 (a : List (List Int)) : ∀ b : List (List Int),
    shape2 a = shape2 b → shape2 (sub2 a b) = shape2 a := by
  induction a with
  | nil => intro b _; cases b <;> rfl
  | cons x xs ih =>
    intro b h
    cases b with
    | nil => simp [shape2] at h
    | cons y ys =>
      rw [shape2_cons, shape2_cons] at h
      injection h with h1 h2
      simp only [sub2, List.zipWith_cons_cons, shape2_cons, List.cons.injEq]
      exact ⟨len_sub1 x y h1, ih ys h2⟩

/-- Volume subtraction preserves the shape when the shapes agree: the
residual has the same shape as the original data. -/
theorem shape3_sub3 (a : Vol) : ∀ b : Vol,
    shape3 a = shape3 b → shape3 (sub3 a b) = shape3 a := by
  induction a with
  | nil => intro b _; cases b <;> rfl
  | cons x xs ih =>
    intro b h
    cases b with
    | nil => simp [shape3] at h
    | cons y ys =>
      rw [shape3_cons, shape3_cons] at h
      injection h with h1 h2
      simp only [sub3, List.zipWith_cons_cons, shape3_cons, List.cons.injEq]
      exact ⟨shape2_sub2 x y h1, ih ys h2⟩

/-- Under the shape contract, any dispatched result has the shape of the
input array. -/
theorem dispatch_shape (t : Tools) (a : Args) (data dn : Vol) (nm : String)
    (ps : List Param) (hsp : ShapePreserving t)
    (hd : dispatch t a data = Option.some (dn, nm, ps)) :
    shape3 dn = shape3 data := by
  unfold dispatch at hd
  split_ifs at hd <;>
    simp only [Option.some.injEq, Prod.mk.injEq] at hd
  · obtain ⟨h1, -, -⟩ := hd; subst h1
    exact hsp.1 data a.h a.patch_size a.patch_distance
  · obtain ⟨h1, -, -⟩ := hd; subst h1
    exact hsp.2.1 data a.sigma
  · obtain ⟨h1, -, -⟩ := hd; subst h1
    exact hsp.2.2.1 data a.patch_size
  · obtain ⟨h1, -, -⟩ := hd; subst h1
    exact hsp.2.2.2.1 data a.patch_size a.sigma_color a.sigma_spatial
  · obtain ⟨h1, -, -⟩ := hd; subst h1
    exact hsp.2.2.2.2 data a.n a.kappa a.gamma

/-- The unmapped-id case of the dispatch: no branch fires. -/
theorem dispatch_none (t : Tools) (a : Args) (data : Vol)
    (h0 : a.denoise_method ≠ 0) (h1 : a.denoise_method ≠ 1)
    (h3 : a.denoise_method ≠ 3) (h4 : a.denoise_method ≠ 4)
    (h5 : a.denoise_method ≠ 5) :
    dispatch t a data = Option.none := by
  unfold dispatch
  rw [if_neg h0, if_neg h1, if_neg h3, if_neg h4, if_neg h5]

/-- The method-5 case of the dispatch: anisotropic diffusion with the
iteration count, kappa and gamma arguments, in that order. -/
theorem dispatch_five (t : Tools) (a : Args) (data : Vol)
    (hm : a.denoise_method = 5) :
    dispatch t a data = Option.some
      (t.denoise_anisotropic_diffusion data a.n a.kappa a.gamma,
       "anisotropic_diffusion",
       [Param.int a.n, Param.rat a.kappa, Param.rat a.gamma]) := by
  unfold dispatch
  rw [hm]
  simp

/-- The method-4 case of the dispatch with an unset `sigma_color`: the
Python value None is forwarded to the bilateral filter and recorded in the
parameters list. -/
theorem dispatch_four_none (t : Tools) (a : Args) (data : Vol)
    (hm : a.denoise_method = 4) (hsc : a.sigma_color = Option.none) :
    dispatch t a data = Option.some
      (t.denoise_bilateral data a.patch_size Option.none a.sigma_spatial,
       "bilateral",
       [Param.int a.patch_size, Param.none, Param.rat a.sigma_spatial]) := by
  unfold dispatch
  rw [hm, hsc]
  simp [Param.ofOptRat]

/-- Characterisation of the successful path of `main`: loader succeeds, the
method id is mapped, both saves succeed. -/
theorem main_eq_ok (t : Tools) (a : Args) (image : Image) (dn : Vol)
    (nm : String) (ps : List Param)
    (hload : t.check_valid_image a.in_image = Except.ok image)
    (hd : dispatch t a (t.reorient_data_rsa image) = Option.some (dn, nm, ps))
    (hw1 : t.save_ok dn image.affine a.in_image nm ps a.output_dir false = true)
    (hw2 : t.save_ok (sub3 (t.reorient_data_rsa image) dn) image.affine
      a.in_image nm ps a.output_dir true = true) :
    main t a = Except.ok (runOf t a image dn nm ps) := by
  unfold main
  rw [hload]
  simp only [hd, hw1, hw2, if_true, runOf]

/-- Characterisation of the load-failure path of `main`. -/
theorem main_eq_load_error (t : Tools) (a : Args)
    (hload : t.check_valid_image a.in_image = Except.error ()) :
    main t a = Except.error PyError.invalidImage := by
  unfold main
  rw [hload]

/-- Characterisation of the unmapped-method path of `main`: line 158 raises
UnboundLocalError on `denoised_image`. -/
theorem main_eq_unbound (t : Tools) (a : Args) (image : Image)
    (hload : t.check_valid_image a.in_image = Except.ok image)
    (hd : dispatch t a (t.reorient_data_rsa image) = Option.none) :
    main t a = Except.error (PyError.unboundLocal "denoised_image") := by
  unfold main
  rw [hload]
  simp only [hd]

/-- The identity stand-in filters of `toolsA` satisfy the shape contract. -/
theorem toolsA_shape : ShapePreserving toolsA :=
  ⟨fun _ _ _ _ => rfl, fun _ _ => rfl, fun _ _ => rfl,
   fun _ _ _ _ => rfl, fun _ _ _ _ => rfl⟩

/-- C1: invoked with the unmapped method id 2 on a valid image, the script
does not raise UnsupportedMethodError (no such error exists in the code): it
crashes with the Python UnboundLocalError on `denoised_image` at the
residual line 158, after the dispatch silently skipped every branch.  It
indeed does not proceed to display or write, but the claimed error type
does not match the code. -/
theorem C1_unmapped_method_unbound_local :
    main toolsA (defaultArgs "brain.nii" 2) =
      Except.error (PyError.unboundLocal "denoised_image") ∧
    exitCode (main toolsA (defaultArgs "brain.nii" 2)) = 1 := by
  constructor <;> rfl

/-- C2: on every successful run of a supported method whose filter keeps the
array shape, the residual is exactly the original (reoriented) array minus
the denoised array elementwise, adding the denoised array back recovers the
original array exactly, the residual has the shape of the original array,
and the residual file is written with the affine of the input image. -/
theorem C2_residual_exact (t : Tools) (a : Args) (image : Image) (dn : Vol)
    (nm : String) (ps : List Param)
    (hload : t.check_valid_image a.in_image = Except.ok image)
    (hd : dispatch t a (t.reorient_data_rsa image) = Option.some (dn, nm, ps))
    (hsh : shape3 dn = shape3 (t.reorient_data_rsa image))
    (hw1 : t.save_ok dn image.affine a.in_image nm ps a.output_dir false = true)
    (hw2 : t.save_ok (sub3 (t.reorient_data_rsa image) dn) image.affine
      a.in_image nm ps a.output_dir true = true) :
    main t a = Except.ok (runOf t a image dn nm ps) ∧
    (runOf t a image dn nm ps).residualArr =
      sub3 (t.reorient_data_rsa image) dn ∧
    add3 dn (runOf t a image dn nm ps).residualArr =
      t.reorient_data_rsa image ∧
    shape3 (runOf t a image dn nm ps).residualArr =
      shape3 (t.reorient_data_rsa image) ∧
    writeAffines (runOf t a image dn nm ps).trace =
      [image.affine, image.affine] :=
  ⟨main_eq_ok t a image dn nm ps hload hd hw1 hw2, rfl,
   add3_sub3 (t.reorient_data_rsa image) dn hsh.symm,
   shape3_sub3 (t.reorient_data_rsa image) dn hsh.symm, rfl⟩

/-- Witness for C2 at a concrete gaussian run. -/
theorem C2_witness :
    main toolsA (defaultArgs "brain.nii" 1) =
      Except.ok (runOf toolsA (defaultArgs "brain.nii" 1) img0 data0.reverse
        "gaussian" [Param.rat 1]) ∧
    (runOf toolsA (defaultArgs "brain.nii" 1) img0 data0.reverse "gaussian"
      [Param.rat 1]).residualArr =
      sub3 (toolsA.reorient_data_rsa img0) data0.reverse ∧
    add3 data0.reverse (runOf toolsA (defaultArgs "brain.nii" 1) img0
      data0.reverse "gaussian" [Param.rat 1]).residualArr =
      toolsA.reorient_data_rsa img0 ∧
    shape3 (runOf toolsA (defaultArgs "brain.nii" 1) img0 data0.reverse
      "gaussian" [Param.rat 1]).residualArr =
      shape3 (toolsA.reorient_data_rsa img0) ∧
    writeAffines (runOf toolsA (defaultArgs "brain.nii" 1) img0 data0.reverse
      "gaussian" [Param.rat 1]).trace = [img0.affine, img0.affine] :=
  C2_residual_exact toolsA (defaultArgs "brain.nii" 1) img0 data0.reverse
    "gaussian" [Param.rat 1] rfl rfl rfl rfl rfl

/-- C3: on every successful run of a supported method, under the spec
contract that every filter preserves the array shape, the denoised array and
the residual array both have exactly the shape of the original
(canonical-orientation) array. -/
theorem C3_shape_invariant (t : Tools) (a : Args) (image : Image) (dn : Vol)
    (nm : String) (ps : List Param)
    (hload : t.check_valid_image a.in_image = Except.ok image)
    (hsp : ShapePreserving t)
    (hd : dispatch t a (t.reorient_data_rsa image) = Option.some (dn, nm, ps))
    (hw1 : t.save_ok dn image.affine a.in_image nm ps a.output_dir false = true)
    (hw2 : t.save_ok (sub3 (t.reorient_data_rsa image) dn) image.affine
      a.in_image nm ps a.output_dir true = true) :
    main t a = Except.ok (runOf t a image dn nm ps) ∧
    shape3 (runOf t a image dn nm ps).denoised =
      shape3 (t.reorient_data_rsa image) ∧
    shape3 (runOf t a image dn nm ps).residualArr =
      shape3 (t.reorient_data_rsa image) := by
  have hsh := dispatch_shape t a (t.reorient_data_rsa image) dn nm ps hsp hd
  exact ⟨main_eq_ok t a image dn nm ps hload hd hw1 hw2, hsh,
    shape3_sub3 (t.reorient_data_rsa image) dn hsh.symm⟩

/-- Witness for C3 at a concrete non-local-means run. -/
theorem C3_witness :
    main toolsA (defaultArgs "brain.nii" 0) =
      Except.ok (runOf toolsA (defaultArgs "brain.nii" 0) img0 data0.reverse
        "nl_means" [Param.int 30, Param.int 5, Param.int 5]) ∧
    shape3 (runOf toolsA (defaultArgs "brain.nii" 0) img0 data0.reverse
      "nl_means" [Param.int 30, Param.int 5, Param.int 5]).denoised =
      shape3 (toolsA.reorient_data_rsa img0) ∧
    shape3 (runOf toolsA (defaultArgs "brain.nii" 0) img0 data0.reverse
      "nl_means" [Param.int 30, Param.int 5, Param.int 5]).residualArr =
      shape3 (toolsA.reorient_data_rsa img0) :=
  C3_shape_invariant toolsA (defaultArgs "brain.nii" 0) img0 data0.reverse
    "nl_means" [Param.int 30, Param.int 5, Param.int 5] rfl toolsA_shape
    rfl rfl rfl

/-- C4: when the loader fails the process exits non-zero (the modelled
InvalidImageError propagates); when the load, dispatch and both writes
succeed the process exits zero. -/
theorem C4_exit_behavior (t : Tools) (a : Args) :
    (t.check_valid_image a.in_image = Except.error () →
      exitCode (main t a) ≠ 0) ∧
    (∀ image dn nm ps,
      t.check_valid_image a.in_image = Except.ok image →
      dispatch t a (t.reorient_data_rsa image) = Option.some (dn, nm, ps) →
      t.save_ok dn image.affine a.in_image nm ps a.output_dir false = true →
      t.save_ok (sub3 (t.reorient_data_rsa image) dn) image.affine
        a.in_image nm ps a.output_dir true = true →
      exitCode (main t a) = 0) := by
  constructor
  · intro hload
    rw [main_eq_load_error t a hload]
    decide
  · intro image dn nm ps hload hd hw1 hw2
    rw [main_eq_ok t a image dn nm ps hload hd hw1 hw2]
    rfl

/-- Witness for C4: a failing load on the empty path exits non-zero, a full
successful run exits zero. -/
theorem C4_witness :
    exitCode (main toolsA (defaultArgs "" 1)) ≠ 0 ∧
    exitCode (main toolsA (defaultArgs "scan.nii" 1)) = 0 :=
  ⟨(C4_exit_behavior toolsA (defaultArgs "" 1)).1 rfl,
   (C4_exit_behavior toolsA (defaultArgs "scan.nii" 1)).2 img0 data0.reverse
     "gaussian" [Param.rat 1] rfl rfl rfl rfl⟩

/-- C5: even when both display operations fail (their failure is recorded in
the trace), a run with successful writes completes normally and both the
denoised and the residual volume are written: display failure is reported
but never blocks the persisted-output workflow. -/
theorem C5_display_failure_nonfatal (t : Tools) (a : Args) (image : Image)
    (dn : Vol) (nm : String) (ps : List Param)
    (hload : t.check_valid_image a.in_image = Except.ok image)
    (hd : dispatch t a (t.reorient_data_rsa image) = Option.some (dn, nm, ps))
    (hd1 : t.display_ok dn image.zooms a.axe = false)
    (hd2 : t.display_ok (sub3 (t.reorient_data_rsa image) dn) image.zooms
      a.axe = false)
    (hw1 : t.save_ok dn image.affine a.in_image nm ps a.output_dir false = true)
    (hw2 : t.save_ok (sub3 (t.reorient_data_rsa image) dn) image.affine
      a.in_image nm ps a.output_dir true = true) :
    main t a = Except.ok (runOf t a image dn nm ps) ∧
    Event.displayStage dn image.zooms a.axe false ∈
      (runOf t a image dn nm ps).trace ∧
    Event.displayStage (sub3 (t.reorient_data_rsa image) dn) image.zooms
      a.axe false ∈ (runOf t a image dn nm ps).trace ∧
    Event.writeStage dn image.affine a.in_image nm ps a.output_dir false ∈
      (runOf t a image dn nm ps).trace ∧
    Event.writeStage (sub3 (t.reorient_data_rsa image) dn) image.affine
      a.in_image nm ps a.output_dir true ∈
      (runOf t a image dn nm ps).trace := by
  refine ⟨main_eq_ok t a image dn nm ps hload hd hw1 hw2, ?_, ?_, ?_, ?_⟩
  · simp [runOf, hd1]
  · simp [runOf, hd2]
  · simp [runOf]
  · simp [runOf]

/-- Witness for C5 at a concrete median run whose display always fails. -/
theorem C5_witness :
    main toolsB (defaultArgs "brain.nii" 3) =
      Except.ok (runOf toolsB (defaultArgs "brain.nii" 3) img0 data0.reverse
        "median" [Param.int 5]) ∧
    Event.displayStage data0.reverse img0.zooms 0 false ∈
      (runOf toolsB (defaultArgs "brain.nii" 3) img0 data0.reverse "median"
        [Param.int 5]).trace ∧
    Event.displayStage (sub3 (toolsB.reorient_data_rsa img0) data0.reverse)
      img0.zooms 0 false ∈
      (runOf toolsB (defaultArgs "brain.nii" 3) img0 data0.reverse "median"
        [Param.int 5]).trace ∧
    Event.writeStage data0.reverse img0.affine "brain.nii" "median"
      [Param.int 5] "." false ∈
      (runOf toolsB (defaultArgs "brain.nii" 3) img0 data0.reverse "median"
        [Param.int 5]).trace ∧
    Event.writeStage (sub3 (toolsB.reorient_data_rsa img0) data0.reverse)
      img0.affine "brain.nii" "median" [Param.int 5] "." true ∈
      (runOf toolsB (defaultArgs "brain.nii" 3) img0 data0.reverse "median"
        [Param.int 5]).trace :=
  C5_display_failure_nonfatal toolsB (defaultArgs "brain.nii" 3) img0
    data0.reverse "median" [Param.int 5] rfl rfl rfl rfl rfl rfl



/-- C6: with method id 5 the dispatcher applies anisotropic diffusion to the
reoriented data with the iteration count, kappa and gamma arguments, the
method name is `anisotropic_diffusion`, and the ordered parameter list
`[n, kappa, gamma]` is handed to the writer for both output files. -/
theorem C6_anisotropic_diffusion_dispatch (t : Tools) (a : Args)
    (image : Image)
    (hload : t.check_valid_image a.in_image = Except.ok image)
    (hm : a.denoise_method = 5)
    (hw1 : t.save_ok (t.denoise_anisotropic_diffusion
        (t.reorient_data_rsa image) a.n a.kappa a.gamma) image.affine
        a.in_image "anisotropic_diffusion"
        [Param.int a.n, Param.rat a.kappa, Param.rat a.gamma]
        a.output_dir false = true)
    (hw2 : t.save_ok (sub3 (t.reorient_data_rsa image)
        (t.denoise_anisotropic_diffusion (t.reorient_data_rsa image)
          a.n a.kappa a.gamma)) image.affine a.in_image
        "anisotropic_diffusion"
        [Param.int a.n, Param.rat a.kappa, Param.rat a.gamma]
        a.output_dir true = true) :
    main t a = Except.ok (runOf t a image
      (t.denoise_anisotropic_diffusion (t.reorient_data_rsa image)
        a.n a.kappa a.gamma)
      "anisotropic_diffusion"
      [Param.int a.n, Param.rat a.kappa, Param.rat a.gamma]) ∧
    (runOf t a image (t.denoise_anisotropic_diffusion
        (t.reorient_data_rsa image) a.n a.kappa a.gamma)
      "anisotropic_diffusion"
      [Param.int a.n, Param.rat a.kappa, Param.rat a.gamma]).method_name =
      "anisotropic_diffusion" ∧
    (runOf t a image (t.denoise_anisotropic_diffusion
        (t.reorient_data_rsa image) a.n a.kappa a.gamma)
      "anisotropic_diffusion"
      [Param.int a.n, Param.rat a.kappa, Param.rat a.gamma]).parameters =
      [Param.int a.n, Param.rat a.kappa, Param.rat a.gamma] ∧
    writeParams (runOf t a image (t.denoise_anisotropic_diffusion
        (t.reorient_data_rsa image) a.n a.kappa a.gamma)
      "anisotropic_diffusion"
      [Param.int a.n, Param.rat a.kappa, Param.rat a.gamma]).trace =
      [[Param.int a.n, Param.rat a.kappa, Param.rat a.gamma],
       [Param.int a.n, Param.rat a.kappa, Param.rat a.gamma]] :=
  ⟨main_eq_ok t a image _ _ _ hload
    (dispatch_five t a (t.reorient_data_rsa image) hm) hw1 hw2,
   rfl, rfl, rfl⟩

/-- Witness for C6 at the default anisotropic-diffusion arguments. -/
theorem C6_witness :
    main toolsA (defaultArgs "brain.nii" 5) =
      Except.ok (runOf toolsA (defaultArgs "brain.nii" 5) img0 data0.reverse
        "anisotropic_diffusion"
        [Param.int 10, Param.rat 50, Param.rat (1/10)]) ∧
    (runOf toolsA (defaultArgs "brain.nii" 5) img0 data0.reverse
      "anisotropic_diffusion"
      [Param.int 10, Param.rat 50, Param.rat (1/10)]).method_name =
      "anisotropic_diffusion" ∧
    (runOf toolsA (defaultArgs "brain.nii" 5) img0 data0.reverse
      "anisotropic_diffusion"
      [Param.int 10, Param.rat 50, Param.rat (1/10)]).parameters =
      [Param.int 10, Param.rat 50, Param.rat (1/10)] ∧
    writeParams (runOf toolsA (defaultArgs "brain.nii" 5) img0 data0.reverse
      "anisotropic_diffusion"
      [Param.int 10, Param.rat 50, Param.rat (1/10)]).trace =
      [[Param.int 10, Param.rat 50, Param.rat (1/10)],
       [Param.int 10, Param.rat 50, Param.rat (1/10)]] :=
  C6_anisotropic_diffusion_dispatch toolsA (defaultArgs "brain.nii" 5) img0
    rfl rfl rfl rfl

/-- C7: on every successful run, the affine handed to the writer is the
affine read from the loaded image, identically for the denoised and the
residual file, and the voxel sizes handed to both display calls are the
voxel sizes read from the loaded image: neither is modified by any stage. -/
theorem C7_affine_immutable (t : Tools) (a : Args) (image : Image) (dn : Vol)
    (nm : String) (ps : List Param)
    (hload : t.check_valid_image a.in_image = Except.ok image)
    (hd : dispatch t a (t.reorient_data_rsa image) = Option.some (dn, nm, ps))
    (hw1 : t.save_ok dn image.affine a.in_image nm ps a.output_dir false = true)
    (hw2 : t.save_ok (sub3 (t.reorient_data_rsa image) dn) image.affine
      a.in_image nm ps a.output_dir true = true) :
    main t a = Except.ok (runOf t a image dn nm ps) ∧
    writeAffines (runOf t a image dn nm ps).trace =
      [image.affine, image.affine] ∧
    displayZooms (runOf t a image dn nm ps).trace =
      [image.zooms, image.zooms] :=
  ⟨main_eq_ok t a image dn nm ps hload hd hw1 hw2, rfl, rfl⟩

/-- Witness for C7 at a concrete gaussian run. -/
theorem C7_witness :
    main toolsA (defaultArgs "t1.nii" 1) =
      Except.ok (runOf toolsA (defaultArgs "t1.nii" 1) img0 data0.reverse
        "gaussian" [Param.rat 1]) ∧
    writeAffines (runOf toolsA (defaultArgs "t1.nii" 1) img0 data0.reverse
      "gaussian" [Param.rat 1]).trace = [img0.affine, img0.affine] ∧
    displayZooms (runOf toolsA (defaultArgs "t1.nii" 1) img0 data0.reverse
      "gaussian" [Param.rat 1]).trace = [img0.zooms, img0.zooms] :=
  C7_affine_immutable toolsA (defaultArgs "t1.nii" 1) img0 data0.reverse
    "gaussian" [Param.rat 1] rfl rfl rfl rfl

/-- C8: every successful invocation performs exactly the stages load,
normalize, denoise, residual, display (twice), write (twice), in that strict
order, none reordered or skipped. -/
theorem C8_stage_order (t : Tools) (a : Args) (image : Image) (dn : Vol)
    (nm : String) (ps : List Param)
    (hload : t.check_valid_image a.in_image = Except.ok image)
    (hd : dispatch t a (t.reorient_data_rsa image) = Option.some (dn, nm, ps))
    (hw1 : t.save_ok dn image.affine a.in_image nm ps a.output_dir false = true)
    (hw2 : t.save_ok (sub3 (t.reorient_data_rsa image) dn) image.affine
      a.in_image nm ps a.output_dir true = true) :
    main t a = Except.ok (runOf t a image dn nm ps) ∧
    (runOf t a image dn nm ps).trace.map stageTag =
      ["load", "normalize", "denoise", "residual",
       "display", "display", "write", "write"] :=
  ⟨main_eq_ok t a image dn nm ps hload hd hw1 hw2, rfl⟩

/-- Witness for C8 at a concrete median run. -/
theorem C8_witness :
    main toolsA (defaultArgs "t1.nii" 3) =
      Except.ok (runOf toolsA (defaultArgs "t1.nii" 3) img0 data0.reverse
        "median" [Param.int 5]) ∧
    (runOf toolsA (defaultArgs "t1.nii" 3) img0 data0.reverse "median"
      [Param.int 5]).trace.map stageTag =
      ["load", "normalize", "denoise", "residual",
       "display", "display", "write", "write"] :=
  C8_stage_order toolsA (defaultArgs "t1.nii" 3) img0 data0.reverse "median"
    [Param.int 5] rfl rfl rfl rfl

/-- C9: on every successful run, the arrays handed to the display and write
stages are the denoised result of the reoriented (RSA canonical) data and
its residual against that reoriented data, while the affine handed to the
writer is the unmodified affine of the input image, not adjusted for the
reorientation. -/
theorem C9_reoriented_arrays_original_affine (t : Tools) (a : Args)
    (image : Image) (dn : Vol) (nm : String) (ps : List Param)
    (hload : t.check_valid_image a.in_image = Except.ok image)
    (hd : dispatch t a (t.reorient_data_rsa image) = Option.some (dn, nm, ps))
    (hw1 : t.save_ok dn image.affine a.in_image nm ps a.output_dir false = true)
    (hw2 : t.save_ok (sub3 (t.reorient_data_rsa image) dn) image.affine
      a.in_image nm ps a.output_dir true = true) :
    main t a = Except.ok (runOf t a image dn nm ps) ∧
    displayArrays (runOf t a image dn nm ps).trace =
      [dn, sub3 (t.reorient_data_rsa image) dn] ∧
    writeArrays (runOf t a image dn nm ps).trace =
      [dn, sub3 (t.reorient_data_rsa image) dn] ∧
    writeAffines (runOf t a image dn nm ps).trace =
      [image.affine, image.affine] :=
  ⟨main_eq_ok t a image dn nm ps hload hd hw1 hw2, rfl, rfl, rfl⟩

/-- Witness for C9 at a concrete gaussian run on an image whose
reorientation genuinely permutes the data, while the affine written is the
original affine of the image. -/
theorem C9_witness :
    toolsA.reorient_data_rsa img0 ≠ img0.data ∧
    (main toolsA (defaultArgs "flip.nii" 1) =
      Except.ok (runOf toolsA (defaultArgs "flip.nii" 1) img0 data0.reverse
        "gaussian" [Param.rat 1]) ∧
    displayArrays (runOf toolsA (defaultArgs "flip.nii" 1) img0 data0.reverse
      "gaussian" [Param.rat 1]).trace =
      [data0.reverse, sub3 (toolsA.reorient_data_rsa img0) data0.reverse] ∧
    writeArrays (runOf toolsA (defaultArgs "flip.nii" 1) img0 data0.reverse
      "gaussian" [Param.rat 1]).trace =
      [data0.reverse, sub3 (toolsA.reorient_data_rsa img0) data0.reverse] ∧
    writeAffines (runOf toolsA (defaultArgs "flip.nii" 1) img0 data0.reverse
      "gaussian" [Param.rat 1]).trace = [img0.affine, img0.affine]) :=
  ⟨by decide,
   C9_reoriented_arrays_original_affine toolsA (defaultArgs "flip.nii" 1)
     img0 data0.reverse "gaussian" [Param.rat 1] rfl rfl rfl rfl⟩

/-- C10: with method id 4 and `--sigma_color` unset, the Python value None
is forwarded as the intensity-difference sigma to the bilateral filter, and
the parameters list naming both output files is
`[patch_size, None, sigma_spatial]`. -/
theorem C10_bilateral_unset_sigma_color (t : Tools) (a : Args)
    (image : Image)
    (hload : t.check_valid_image a.in_image = Except.ok image)
    (hm : a.denoise_method = 4)
    (hsc : a.sigma_color = Option.none)
    (hw1 : t.save_ok (t.denoise_bilateral (t.reorient_data_rsa image)
        a.patch_size Option.none a.sigma_spatial) image.affine a.in_image
        "bilateral"
        [Param.int a.patch_size, Param.none, Param.rat a.sigma_spatial]
        a.output_dir false = true)
    (hw2 : t.save_ok (sub3 (t.reorient_data_rsa image)
        (t.denoise_bilateral (t.reorient_data_rsa image) a.patch_size
          Option.none a.sigma_spatial)) image.affine a.in_image "bilateral"
        [Param.int a.patch_size, Param.none, Param.rat a.sigma_spatial]
        a.output_dir true = true) :
    main t a = Except.ok (runOf t a image
      (t.denoise_bilateral (t.reorient_data_rsa image) a.patch_size
        Option.none a.sigma_spatial)
      "bilateral"
      [Param.int a.patch_size, Param.none, Param.rat a.sigma_spatial]) ∧
    (runOf t a image (t.denoise_bilateral (t.reorient_data_rsa image)
        a.patch_size Option.none a.sigma_spatial) "bilateral"
      [Param.int a.patch_size, Param.none,
       Param.rat a.sigma_spatial]).denoised =
      t.denoise_bilateral (t.reorient_data_rsa image) a.patch_size
        Option.none a.sigma_spatial ∧
    (runOf t a image (t.denoise_bilateral (t.reorient_data_rsa image)
        a.patch_size Option.none a.sigma_spatial) "bilateral"
      [Param.int a.patch_size, Param.none,
       Param.rat a.sigma_spatial]).parameters =
      [Param.int a.patch_size, Param.none, Param.rat a.sigma_spatial] ∧
    writeParams (runOf t a image (t.denoise_bilateral
        (t.reorient_data_rsa image) a.patch_size Option.none
        a.sigma_spatial) "bilateral"
      [Param.int a.patch_size, Param.none,
       Param.rat a.sigma_spatial]).trace =
      [[Param.int a.patch_size, Param.none, Param.rat a.sigma_spatial],
       [Param.int a.patch_size, Param.none, Param.rat a.sigma_spatial]] :=
  ⟨main_eq_ok t a image _ _ _ hload
    (dispatch_four_none t a (t.reorient_data_rsa image) hm hsc) hw1 hw2,
   rfl, rfl, rfl⟩

/-- Witness for C10 at the default bilateral arguments, where sigma_color is
unset. -/
theorem C10_witness :
    main toolsA (defaultArgs "brain.nii" 4) =
      Except.ok (runOf toolsA (defaultArgs "brain.nii" 4) img0 data0.reverse
        "bilateral" [Param.int 5, Param.none, Param.rat 1]) ∧
    (runOf toolsA (defaultArgs "brain.nii" 4) img0 data0.reverse "bilateral"
      [Param.int 5, Param.none, Param.rat 1]).denoised =
      toolsA.denoise_bilateral (toolsA.reorient_data_rsa img0) 5
        Option.none 1 ∧
    (runOf toolsA (defaultArgs "brain.nii" 4) img0 data0.reverse "bilateral"
      [Param.int 5, Param.none, Param.rat 1]).parameters =
      [Param.int 5, Param.none, Param.rat 1] ∧
    writeParams (runOf toolsA (defaultArgs "brain.nii" 4) img0 data0.reverse
      "bilateral" [Param.int 5, Param.none, Param.rat 1]).trace =
      [[Param.int 5, Param.none, Param.rat 1],
       [Param.int 5, Param.none, Param.rat 1]] :=
  C10_bilateral_unset_sigma_color toolsA (defaultArgs "brain.nii" 4) img0
    rfl rfl rfl rfl rfl

end DenoiseImage
